import Mathlib

/-!
Shallow embedding of the solar-collector thermal simulation
(`ThermalSimulation` component): the four node chains, pump transport,
stratification mixing, solar heating, vertical conduction and the tick
orchestrator. Temperatures are modelled as rationals; JavaScript code
paths that would evaluate `undefined` or throw (popping or averaging an
empty array) are modelled with `Option`.
-/

namespace ThermalSim

/-- In meters^3. The volume of the thermal storage tank (`300 / 1000`). -/
def tankVolume : ℚ := 300 / 1000

/-- In meters^2. The surface area of the solar collector. -/
def collectorSurfaceArea : ℚ := 5

/-- In meters^3. The volume of water in the solar collectors (`0.007`). -/
def volumeOfWaterInCollector : ℚ := 7 / 1000

/-- In meters^3/second. The flow rate of the pump when on (`0.0000555`). -/
def pumpFlowRateWhenOn : ℚ := 555 / 10000000

/-- In meters^3. The volume of a discrete segment of water (`0.001`). -/
def volumeOfWaterNode : ℚ := 1 / 1000

/-- In seconds. The time it takes the pump to move one water node. -/
def pumpTimeToMoveOneNode : ℚ := volumeOfWaterNode / pumpFlowRateWhenOn

/-- JavaScript `Math.round`: round half toward positive infinity. -/
def jsRound (q : ℚ) : ℤ := ⌊q + 1 / 2⌋

/-- Number of water nodes that fit inside the solar collector
(`Math.round(volumeOfWaterInCollector / volumeOfWaterNode)`). -/
def collectorWaterNodeCount : ℕ :=
  (jsRound (volumeOfWaterInCollector / volumeOfWaterNode)).toNat

/-- Number of water nodes that fit inside the full thermal storage tank
(`Math.round(tankVolume / volumeOfWaterNode)`). -/
def tankWaterNodeCount : ℕ :=
  (jsRound (tankVolume / volumeOfWaterNode)).toNat

/-- Number of water nodes that fit inside each of the pipes. -/
def pipeWaterNodeCount : ℕ := 2

/-- In °C. The temperature of the air that surrounds the system. -/
def ambientAirTemperature : ℚ := 20

/-- In °C. The temperature of all the water in the system at t = 0. -/
def initialWaterTemperature : ℚ := ambientAirTemperature

/-- In joules/(kg·°C). The specific heat capacity of water. -/
def specificHeatCapacityOfWater : ℚ := 4186

/-- In kg/m^3. The density of water. -/
def densityOfWater : ℚ := 1000

/-- In kg. The mass of the water in the solar collector. -/
def collectorTotalWaterMass : ℚ := volumeOfWaterInCollector * densityOfWater

/-- In kg. The mass of one water node. -/
def massOfWaterNode : ℚ := volumeOfWaterNode * densityOfWater

/-- `array.reduce((a, b) => a + b) / array.length`.  On the empty array the
source throws; callers guard that case with `Option`. -/
def average (array : List ℚ) : ℚ := array.sum / (array.length : ℚ)

/-- Returns the average of the first `n` numbers in an array
(`average(numbers.slice(0, n))`). -/
def averageOfFirstNNumbers (numbers : List ℚ) (n : ℕ) : ℚ :=
  average (numbers.take n)

/-- The `while` loop of `mixColdWaterOnTopOfTankWithHotWaterBelow`, written
with explicit fuel.  Invoked with `fuel = nodes.length - k`, so that
`fuel = 0` is exactly the exit `¬(k < nodes.length)` of the guard
`countOfNodesToMix < nodes.length && average < nodes[countOfNodesToMix]`. -/
def growWindowAux (nodes : List ℚ) : ℕ → ℕ → ℕ
  | 0, k => k
  | fuel + 1, k =>
    if averageOfFirstNNumbers nodes k < nodes.getD k 0 then
      growWindowAux nodes fuel (k + 1)
    else k

/-- Final value of `countOfNodesToMix` when the growth loop starts at `k`. -/
def growWindow (nodes : List ℚ) (k : ℕ) : ℕ :=
  growWindowAux nodes (nodes.length - k) k

/-- JavaScript `Array.prototype.fill(value, 0, k)`: overwrite the indices
below `min k l.length`, keep the rest. -/
def listFill (l : List ℚ) (value : ℚ) (k : ℕ) : List ℚ :=
  List.replicate (min k l.length) value ++ l.drop k

/-- `mixColdWaterOnTopOfTankWithHotWaterBelow` on the tank array.  With at
least two nodes, `nodes[0] >= nodes[1]` is the fast path; otherwise the
window grows from 2 and the window is filled with its average.  On a
one-node tank the comparison with the `undefined` second node is false, the
loop body never runs and the fill rewrites node 0 with its own average.  On
an empty tank `average` throws (`none`). -/
def mixColdWaterOnTopOfTankWithHotWaterBelow (nodes : List ℚ) :
    Option (List ℚ) :=
  match nodes with
  | [] => none
  | [t] =>
    some (listFill [t] (averageOfFirstNNumbers [t] (growWindow [t] 2))
      (growWindow [t] 2))
  | t0 :: t1 :: _ =>
    if t1 ≤ t0 then some nodes
    else
      some (listFill nodes
        (averageOfFirstNNumbers nodes (growWindow nodes 2))
        (growWindow nodes 2))

/-- Unit-test scenario: a uniform tank is unchanged (fast path). -/
theorem mix_scenario_uniform :
    mixColdWaterOnTopOfTankWithHotWaterBelow [5, 5, 5, 5, 5] =
    some [5, 5, 5, 5, 5] := by
  norm_num [mixColdWaterOnTopOfTankWithHotWaterBelow]

/-- Unit-test scenario: a cold top node mixes the whole tank. -/
theorem mix_scenario_whole_tank :
    mixColdWaterOnTopOfTankWithHotWaterBelow [1, 6, 6, 6, 6] =
    some [5, 5, 5, 5, 5] := by
  norm_num [mixColdWaterOnTopOfTankWithHotWaterBelow, listFill, growWindow,
    growWindowAux, averageOfFirstNNumbers, average, List.replicate_succ]

/-- Unit-test scenario: hot-over-cold stratification is untouched. -/
theorem mix_scenario_fast_path :
    mixColdWaterOnTopOfTankWithHotWaterBelow [5, 2, 2, 2, 2] =
    some [5, 2, 2, 2, 2] := by
  norm_num [mixColdWaterOnTopOfTankWithHotWaterBelow]

/-- Unit-test scenario: the window stops once its mean reaches the next
node. -/
theorem mix_scenario_stops_at_cold :
    mixColdWaterOnTopOfTankWithHotWaterBelow [2, 5, 5, 1, 1] =
    some [4, 4, 4, 1, 1] := by
  norm_num [mixColdWaterOnTopOfTankWithHotWaterBelow, listFill, growWindow,
    growWindowAux, averageOfFirstNNumbers, average, List.replicate_succ]

/-- Unit-test scenario: all but the last node end up at the mean 4. -/
theorem mix_scenario_all_but_last :
    mixColdWaterOnTopOfTankWithHotWaterBelow [2, 6, 4, 4, 3] =
    some [4, 4, 4, 4, 3] := by
  norm_num [mixColdWaterOnTopOfTankWithHotWaterBelow, listFill, growWindow,
    growWindowAux, averageOfFirstNNumbers, average, List.replicate_succ]

/-- The mutable simulation state: run/pump flags, clock, solar intensity
and the four node chains (head first, as in the source arrays). -/
structure SimState where
  simulationRunning : Bool
  pumpOn : Bool
  t : ℚ
  solarIntensity : ℚ
  collectorWaterNodeTemperatures : List ℚ
  tankWaterNodeTemperatures : List ℚ
  upperPipeWaterNodeTemperatures : List ℚ
  lowerPipeWaterNodeTemperatures : List ℚ
  deriving DecidableEq, Repr

/-- JavaScript `array.pop()` under the source's `as number` cast: the last
element together with the remaining array; `undefined` on an empty array is
modelled as `none`. -/
def jsPop (l : List ℚ) : Option (ℚ × List ℚ) :=
  match l.getLast? with
  | none => none
  | some x => some (x, l.dropLast)

/-- `pumpOneWaterNode`: four sequential `unshift(pop())` moves, lower pipe →
collector → upper pipe → tank → lower pipe. -/
def pumpOneWaterNode (s : SimState) : Option SimState := do
  let (fromLowerPipe, lowerPipeRest) ← jsPop s.lowerPipeWaterNodeTemperatures
  let collector0 := fromLowerPipe :: s.collectorWaterNodeTemperatures
  let (fromCollector, collectorRest) ← jsPop collector0
  let upperPipe0 := fromCollector :: s.upperPipeWaterNodeTemperatures
  let (fromUpperPipe, upperPipeRest) ← jsPop upperPipe0
  let tank0 := fromUpperPipe :: s.tankWaterNodeTemperatures
  let (fromTank, tankRest) ← jsPop tank0
  pure { s with
    collectorWaterNodeTemperatures := collectorRest
    upperPipeWaterNodeTemperatures := upperPipeRest
    tankWaterNodeTemperatures := tankRest
    lowerPipeWaterNodeTemperatures := fromTank :: lowerPipeRest }

/-- The efficiency of the solar collector: a best-fit line in the
difference between output and ambient temperature. -/
def efficiencyOfSolarCollector (solarCollectorOutputTemperature
    ambientAirTemp : ℚ) : ℚ :=
  let differenceFromRoomTemp :=
    solarCollectorOutputTemperature - ambientAirTemp
  (-943) / 100000 * differenceFromRoomTemp + 66 / 100

/-- `last(state.collectorWaterNodeTemperatures)`; the chain is never empty
in a valid configuration, so the default is never observed. -/
def collectorOutputTemperature (collector : List ℚ) : ℚ :=
  (collector.getLast?).getD 0

/-- `heatWaterInSolarCollector`: one uniform temperature increase applied
to every collector node. -/
def heatWaterInSolarCollector (solarIntensity : ℚ) (collector : List ℚ)
    (deltaTime : ℚ) : List ℚ :=
  let energyFromSun := solarIntensity * collectorSurfaceArea * deltaTime
  let heatAddedToWater := energyFromSun *
    efficiencyOfSolarCollector (collectorOutputTemperature collector)
      ambientAirTemperature
  let temperatureIncrease :=
    heatAddedToWater / (collectorTotalWaterMass * specificHeatCapacityOfWater)
  collector.map (fun temp => temp + temperatureIncrease)

/-- In meters^2. The cross-sectional area of the tank.  `tankHeight` is
`Math.cbrt(tankVolume) * 3` in the source, an irrational number, so it is
kept as a parameter here. -/
def contactAreaOfWaterNodeInTank (tankHeight : ℚ) : ℚ :=
  tankVolume / tankHeight

/-- In meters. The height of one water node in the tank. -/
def heightOfWaterNodeInTank (tankHeight : ℚ) : ℚ :=
  tankHeight / (tankWaterNodeCount : ℚ)

/-- The `conductedHeat` array: a leading `0` (no heat through the top
wall), one entry per internal boundary `i ∈ [1, length)` equal to
`(T[i-1] - T[i]) * (contactArea / nodeHeight) * deltaTime`, and a trailing
`0` (no heat through the bottom wall). -/
def conductedHeat (tankHeight deltaTime : ℚ) (T : List ℚ) : List ℚ :=
  (0 :: (List.range (T.length - 1)).map (fun j =>
    (T.getD j 0 - T.getD (j + 1) 0) *
      (contactAreaOfWaterNodeInTank tankHeight /
        heightOfWaterNodeInTank tankHeight) * deltaTime)) ++ [0]

/-- `manageHeatConductionAcrossTankWater`: every node gains
`(conductedHeat[i] - conductedHeat[i+1]) / massOfWaterNode /
specificHeatCapacityOfWater`, all read from the same pre-step snapshot. -/
def manageHeatConductionAcrossTankWater (tankHeight deltaTime : ℚ)
    (T : List ℚ) : List ℚ :=
  let heats := conductedHeat tankHeight deltaTime T
  (List.range T.length).map (fun i =>
    T.getD i 0 + (heats.getD i 0 - heats.getD (i + 1) 0) /
      massOfWaterNode / specificHeatCapacityOfWater)

/-- One run of the `setInterval` control-loop body. -/
def tick (tankHeight : ℚ) (s : SimState) : Option SimState :=
  if s.simulationRunning then
    let deltaTime := pumpTimeToMoveOneNode
    let s1 := { s with t := s.t + deltaTime }
    let afterPump : Option SimState :=
      if s1.pumpOn then do
        let s2 ← pumpOneWaterNode s1
        let mixedTank ←
          mixColdWaterOnTopOfTankWithHotWaterBelow
            s2.tankWaterNodeTemperatures
        pure { s2 with tankWaterNodeTemperatures := mixedTank }
      else pure s1
    afterPump.map (fun s3 =>
      let s4 := { s3 with collectorWaterNodeTemperatures :=
        (heatWaterInSolarCollector s3.solarIntensity
          s3.collectorWaterNodeTemperatures deltaTime) }
      { s4 with tankWaterNodeTemperatures :=
        (manageHeatConductionAcrossTankWater tankHeight deltaTime
          s4.tankWaterNodeTemperatures) })
  else pure s

/-- `assertVolumeIsAMultipleOfNodeVolume` throws exactly when
`Math.abs(volume - nodeCount * volumeOfWaterNode) > 0.000001`; `true`
means the configuration error is raised. -/
def assertVolumeIsAMultipleOfNodeVolume (volume : ℚ) (nodeCount : ℤ) :
    Bool :=
  1 / 1000000 < |volume - (nodeCount : ℚ) * volumeOfWaterNode|

/-- The construction-time validation: the two module-level assertions run
on the collector and tank volumes before `setInterval` installs the tick
callback. -/
def constructionRaisesConfigurationError : Bool :=
  assertVolumeIsAMultipleOfNodeVolume volumeOfWaterInCollector
    (jsRound (volumeOfWaterInCollector / volumeOfWaterNode)) ||
  assertVolumeIsAMultipleOfNodeVolume tankVolume
    (jsRound (tankVolume / volumeOfWaterNode))

/-- The growth rule's stopping condition at window size `m`: the window has
reached the bottom of the tank, or the mean of the window is no longer less
than the next node below it. -/
def windowStops (nodes : List ℚ) (m : ℕ) : Prop :=
  nodes.length ≤ m ∨ nodes.getD m 0 ≤ averageOfFirstNNumbers nodes m

instance (nodes : List ℚ) (m : ℕ) : Decidable (windowStops nodes m) := by
  unfold windowStops; infer_instance

/-- Size of the window that the mixing operation averaged: `0` when the
fast path fires (or would fire), the final `countOfNodesToMix` otherwise. -/
def mixWindowSize (nodes : List ℚ) : ℕ :=
  match nodes with
  | [] => 0
  | [t] => growWindow [t] 2
  | t0 :: t1 :: _ => if t1 ≤ t0 then 0 else growWindow nodes 2

/-- Reference conduction step, written from the specification: for each
internal boundary `i` (`1 ≤ i ≤ n - 1`) the conducted heat is
`(T[i-1] - T[i]) * (contactArea / nodeHeight) * Δt` with
`contactArea = tankVolume / tankHeight` and `nodeHeight = tankHeight / n`;
the heat across the top of node `0` and the bottom of node `n-1` is zero;
every node's new temperature is its pre-step temperature plus
`(heat in from above - heat out to below) / (nodeMass * specificHeat)`,
all computed from the same pre-step snapshot. -/
def conductionReferenceStep (tankHeight deltaTime : ℚ) (T : List ℚ) :
    List ℚ :=
  let n := T.length
  let contactArea := tankVolume / tankHeight
  let nodeHeight := tankHeight / (n : ℚ)
  let flux : ℕ → ℚ := fun i =>
    if 1 ≤ i ∧ i + 1 ≤ n then
      (T.getD (i - 1) 0 - T.getD i 0) * (contactArea / nodeHeight) *
        deltaTime
    else 0
  (List.range n).map (fun i =>
    T.getD i 0 + (flux i - flux (i + 1)) /
      (massOfWaterNode * specificHeatCapacityOfWater))

/-- The unconditional tail of a tick: Solar Heating, then Vertical
Conduction, at the fixed step. -/
def heatThenConduct (tankHeight : ℚ) (s : SimState) : SimState :=
  let s4 := { s with collectorWaterNodeTemperatures :=
    (heatWaterInSolarCollector s.solarIntensity
      s.collectorWaterNodeTemperatures pumpTimeToMoveOneNode) }
  { s4 with tankWaterNodeTemperatures :=
    (manageHeatConductionAcrossTankWater tankHeight pumpTimeToMoveOneNode
      s4.tankWaterNodeTemperatures) }

/-! ### Lemmas about the mixing window loop -/

theorem growWindowAux_ge (nodes : List ℚ) (fuel k : ℕ) :
    k ≤ growWindowAux nodes fuel k := by
  induction fuel generalizing k with
  | zero => simp [growWindowAux]
  | succ fuel ih =>
    unfold growWindowAux
    split
    · exact (Nat.le_succ k).trans (ih (k + 1))
    · exact le_refl k

theorem growWindowAux_le (nodes : List ℚ) (fuel k : ℕ) :
    growWindowAux nodes fuel k ≤ k + fuel := by
  induction fuel generalizing k with
  | zero => simp [growWindowAux]
  | succ fuel ih =>
    unfold growWindowAux
    split
    · exact (ih (k + 1)).trans (by omega)
    · omega

theorem growWindowAux_stops (nodes : List ℚ) (fuel k : ℕ)
    (h : k + fuel = nodes.length) :
    windowStops nodes (growWindowAux nodes fuel k) := by
  induction fuel generalizing k with
  | zero => exact Or.inl (by simp [growWindowAux]; omega)
  | succ fuel ih =>
    unfold growWindowAux
    split
    · exact ih (k + 1) (by omega)
    · exact Or.inr (le_of_not_lt (by assumption))

theorem growWindowAux_min (nodes : List ℚ) (fuel k : ℕ) :
    ∀ j, k ≤ j → j < growWindowAux nodes fuel k →
      averageOfFirstNNumbers nodes j < nodes.getD j 0 := by
  induction fuel generalizing k with
  | zero =>
    intro j hj hlt
    simp [growWindowAux] at hlt
    omega
  | succ fuel ih =>
    intro j hj hlt
    unfold growWindowAux at hlt
    split at hlt
    · rcases eq_or_lt_of_le hj with rfl | hj1
      · assumption
      · exact ih (k + 1) j hj1 hlt
    · omega

theorem growWindow_ge (nodes : List ℚ) (k : ℕ) : k ≤ growWindow nodes k :=
  growWindowAux_ge nodes _ k

theorem growWindow_le_length (nodes : List ℚ) (k : ℕ)
    (h : k ≤ nodes.length) : growWindow nodes k ≤ nodes.length :=
  (growWindowAux_le nodes _ k).trans (by omega)

theorem growWindow_stops (nodes : List ℚ) (k : ℕ) (h : k ≤ nodes.length) :
    windowStops nodes (growWindow nodes k) :=
  growWindowAux_stops nodes _ k (by omega)

theorem growWindow_min (nodes : List ℚ) (k : ℕ) :
    ∀ j, k ≤ j → j < growWindow nodes k →
      averageOfFirstNNumbers nodes j < nodes.getD j 0 :=
  growWindowAux_min nodes _ k

theorem listFill_length (l : List ℚ) (v : ℚ) (k : ℕ) :
    (listFill l v k).length = l.length := by
  simp [listFill]; omega

theorem listFill_eq_of_le (l : List ℚ) (v : ℚ) (k : ℕ)
    (h : k ≤ l.length) :
    listFill l v k = List.replicate k v ++ l.drop k := by
  simp [listFill, Nat.min_eq_left h]

theorem mix_slow_eq (t0 t1 : ℚ) (rest : List ℚ) (h : ¬ t1 ≤ t0) :
    mixColdWaterOnTopOfTankWithHotWaterBelow (t0 :: t1 :: rest) =
      some (List.replicate (growWindow (t0 :: t1 :: rest) 2)
          (averageOfFirstNNumbers (t0 :: t1 :: rest)
            (growWindow (t0 :: t1 :: rest) 2)) ++
        (t0 :: t1 :: rest).drop (growWindow (t0 :: t1 :: rest) 2)) := by
  have hk : growWindow (t0 :: t1 :: rest) 2 ≤ (t0 :: t1 :: rest).length :=
    growWindow_le_length _ 2 (by simp)
  simp only [mixColdWaterOnTopOfTankWithHotWaterBelow, if_neg h,
    listFill_eq_of_le _ _ _ hk]

theorem replicate_append_getD_lt (v : ℚ) (k i : ℕ) (tail : List ℚ)
    (hi : i < k) :
    (List.replicate k v ++ tail).getD i 0 = v := by
  rw [List.getD_append _ _ _ i (by simpa using hi),
    List.getD_eq_getElem _ _ (by simpa using hi), List.getElem_replicate]

/-- C1: for a tank of length ≥ 2 whose top node is strictly colder than
the second, mixing computes the smallest window by the growth rule
(start at 2; grow while the bottom is not reached and the window mean is
still less than the next node below) and overwrites exactly that window
with its unweighted mean, leaving the nodes below it unchanged; if the top
node is ≥ the second the tank is unchanged; and the concrete spec
scenarios `[2,6,4,4,3] → [4,4,4,4,3]` and `[1,6,6,6,6] → [5,5,5,5,5]`
hold. -/
theorem mixing_computes_smallest_window (nodes : List ℚ)
    (h2 : 2 ≤ nodes.length) :
    (nodes.getD 0 0 < nodes.getD 1 0 →
      ∃ k, 2 ≤ k ∧ k ≤ nodes.length ∧ windowStops nodes k ∧
        (∀ j, 2 ≤ j → j < k → ¬ windowStops nodes j) ∧
        mixColdWaterOnTopOfTankWithHotWaterBelow nodes =
          some (List.replicate k (averageOfFirstNNumbers nodes k) ++
            nodes.drop k)) ∧
    (nodes.getD 1 0 ≤ nodes.getD 0 0 →
      mixColdWaterOnTopOfTankWithHotWaterBelow nodes = some nodes) ∧
    mixColdWaterOnTopOfTankWithHotWaterBelow [2, 6, 4, 4, 3] =
      some [4, 4, 4, 4, 3] ∧
    mixColdWaterOnTopOfTankWithHotWaterBelow [1, 6, 6, 6, 6] =
      some [5, 5, 5, 5, 5] := by
  match nodes, h2 with
  | t0 :: t1 :: rest, _ =>
    refine ⟨?_, ?_, ?_, ?_⟩
    · intro hlt
      simp only [List.getD_cons_zero, List.getD_cons_succ] at hlt
      have hne : ¬ t1 ≤ t0 := not_le.mpr hlt
      refine ⟨growWindow (t0 :: t1 :: rest) 2, growWindow_ge _ 2,
        growWindow_le_length _ 2 (by simp), growWindow_stops _ 2 (by simp),
        ?_, mix_slow_eq t0 t1 rest hne⟩
      intro j h2j hjk
      have havg := growWindow_min (t0 :: t1 :: rest) 2 j h2j hjk
      have hjlen : j < (t0 :: t1 :: rest).length :=
        lt_of_lt_of_le hjk (growWindow_le_length _ 2 (by simp))
      simp only [windowStops, not_or, not_le]
      exact ⟨hjlen, havg⟩
    · intro hle
      simp only [List.getD_cons_zero, List.getD_cons_succ] at hle
      simp [mixColdWaterOnTopOfTankWithHotWaterBelow, if_pos hle]
    · norm_num [mixColdWaterOnTopOfTankWithHotWaterBelow, listFill,
        growWindow, growWindowAux, averageOfFirstNNumbers, average,
        List.replicate_succ]
    · norm_num [mixColdWaterOnTopOfTankWithHotWaterBelow, listFill,
        growWindow, growWindowAux, averageOfFirstNNumbers, average,
        List.replicate_succ]

/-- Witness for C1 at the concrete tank `[2,6,4,4,3]`. -/
theorem mixing_computes_smallest_window_witness :
    2 ≤ ([(2 : ℚ), 6, 4, 4, 3]).length ∧
    mixColdWaterOnTopOfTankWithHotWaterBelow [(2 : ℚ), 6, 4, 4, 3] =
      some [4, 4, 4, 4, 3] :=
  ⟨by simp, (mixing_computes_smallest_window [2, 6, 4, 4, 3]
    (by simp)).2.2.1⟩

theorem replicate_append_drop_length (v : ℚ) (k : ℕ) (nodes : List ℚ)
    (hk : k ≤ nodes.length) :
    (List.replicate k v ++ nodes.drop k).length = nodes.length := by
  simp; omega

theorem replicate_append_drop_getD_boundary (v : ℚ) (k : ℕ)
    (nodes : List ℚ) (hk : k < nodes.length) :
    (List.replicate k v ++ nodes.drop k).getD k 0 = nodes.getD k 0 := by
  rw [List.getD_append_right _ _ _ k (by simp)]
  simp only [List.length_replicate, Nat.sub_self]
  rw [List.getD_eq_getElem _ _ (by simp; omega), List.getElem_drop,
    List.getD_eq_getElem _ _ (by omega)]
  simp

/-- C6: immediately after mixing, temperatures are non-increasing from top
to bottom on every adjacent pair that lies inside or on the boundary of
the averaged window. -/
theorem mixing_monotone_in_window (nodes l : List ℚ)
    (h : mixColdWaterOnTopOfTankWithHotWaterBelow nodes = some l) :
    ∀ i, i + 1 ≤ mixWindowSize nodes → i + 1 < l.length →
      l.getD (i + 1) 0 ≤ l.getD i 0 := by
  match nodes with
  | [] => simp [mixColdWaterOnTopOfTankWithHotWaterBelow] at h
  | [t] =>
    simp only [mixColdWaterOnTopOfTankWithHotWaterBelow,
      Option.some_inj] at h
    intro i _ hilen
    rw [← h, listFill_length] at hilen
    simp only [List.length_singleton] at hilen
    omega
  | t0 :: t1 :: rest =>
    by_cases hle : t1 ≤ t0
    · intro i hi _
      simp [mixWindowSize, if_pos hle] at hi
    · intro i hiwin hilen
      rw [mix_slow_eq t0 t1 rest hle, Option.some_inj] at h
      have hkn : growWindow (t0 :: t1 :: rest) 2 ≤
          (t0 :: t1 :: rest).length := growWindow_le_length _ 2 (by simp)
      have hwin : mixWindowSize (t0 :: t1 :: rest) =
          growWindow (t0 :: t1 :: rest) 2 := by
        simp [mixWindowSize, if_neg hle]
      rw [hwin] at hiwin
      rw [← h, replicate_append_drop_length _ _ _ hkn] at hilen
      rcases lt_or_eq_of_le hiwin with hlt | heq
      · rw [← h, replicate_append_getD_lt _ _ _ _ hlt,
          replicate_append_getD_lt _ _ _ _ (by omega)]
      · have hkn2 : growWindow (t0 :: t1 :: rest) 2 <
          (t0 :: t1 :: rest).length := by omega
        rw [← h, heq, replicate_append_drop_getD_boundary _ _ _ hkn2,
          replicate_append_getD_lt _ _ _ _ (by omega)]
        rcases growWindow_stops (t0 :: t1 :: rest) 2 (by simp) with
          hstop | hstop
        · omega
        · exact hstop

/-- Witness for C6 at the concrete tank `[2,6,4,4,3]`. -/
theorem mixing_monotone_in_window_witness :
    mixColdWaterOnTopOfTankWithHotWaterBelow [(2 : ℚ), 6, 4, 4, 3] =
      some [4, 4, 4, 4, 3] ∧
    (∀ i, i + 1 ≤ mixWindowSize [(2 : ℚ), 6, 4, 4, 3] →
      i + 1 < ([(4 : ℚ), 4, 4, 4, 3]).length →
      ([(4 : ℚ), 4, 4, 4, 3]).getD (i + 1) 0 ≤
        ([(4 : ℚ), 4, 4, 4, 3]).getD i 0) := by
  have hmix : mixColdWaterOnTopOfTankWithHotWaterBelow
      [(2 : ℚ), 6, 4, 4, 3] = some [4, 4, 4, 4, 3] := by
    norm_num [mixColdWaterOnTopOfTankWithHotWaterBelow, listFill,
      growWindow, growWindowAux, averageOfFirstNNumbers, average,
      List.replicate_succ]
  exact ⟨hmix, mixing_monotone_in_window _ _ hmix⟩

/-- C8: stratification mixing is idempotent — running it a second time
always takes the do-nothing path. -/
theorem mixing_idempotent (T : List ℚ) :
    (mixColdWaterOnTopOfTankWithHotWaterBelow T).bind
      mixColdWaterOnTopOfTankWithHotWaterBelow =
    mixColdWaterOnTopOfTankWithHotWaterBelow T := by
  match T with
  | [] => simp [mixColdWaterOnTopOfTankWithHotWaterBelow]
  | [t] =>
    norm_num [mixColdWaterOnTopOfTankWithHotWaterBelow, listFill,
      growWindow, growWindowAux, averageOfFirstNNumbers, average]
  | t0 :: t1 :: rest =>
    by_cases hle : t1 ≤ t0
    · simp [mixColdWaterOnTopOfTankWithHotWaterBelow, if_pos hle]
    · rw [mix_slow_eq t0 t1 rest hle]
      obtain ⟨k2, hk2⟩ : ∃ k2, growWindow (t0 :: t1 :: rest) 2 = 2 + k2 :=
        Nat.exists_eq_add_of_le (growWindow_ge (t0 :: t1 :: rest) 2)
      rw [hk2, show 2 + k2 = (k2 + 1) + 1 by omega]
      simp [List.replicate_succ, mixColdWaterOnTopOfTankWithHotWaterBelow]

/-! ### Lemmas about pump transport -/

theorem jsPop_eq (l : List ℚ) (h : l ≠ []) :
    jsPop l = some (l.getLast h, l.dropLast) := by
  simp [jsPop, List.getLast?_eq_getLast l h]

theorem pumpOneWaterNode_eq (s : SimState)
    (hc : s.collectorWaterNodeTemperatures ≠ [])
    (hu : s.upperPipeWaterNodeTemperatures ≠ [])
    (ht : s.tankWaterNodeTemperatures ≠ [])
    (hl : s.lowerPipeWaterNodeTemperatures ≠ []) :
    pumpOneWaterNode s = some { s with
      collectorWaterNodeTemperatures :=
        (s.lowerPipeWaterNodeTemperatures.getLast hl ::
          s.collectorWaterNodeTemperatures.dropLast)
      upperPipeWaterNodeTemperatures :=
        (s.collectorWaterNodeTemperatures.getLast hc ::
          s.upperPipeWaterNodeTemperatures.dropLast)
      tankWaterNodeTemperatures :=
        (s.upperPipeWaterNodeTemperatures.getLast hu ::
          s.tankWaterNodeTemperatures.dropLast)
      lowerPipeWaterNodeTemperatures :=
        (s.tankWaterNodeTemperatures.getLast ht ::
          s.lowerPipeWaterNodeTemperatures.dropLast) } := by
  unfold pumpOneWaterNode
  rw [jsPop_eq _ hl]
  simp only [Option.bind_eq_bind, Option.some_bind]
  rw [jsPop_eq _ (List.cons_ne_nil _ _)]
  simp only [Option.some_bind, List.getLast_cons hc,
    List.dropLast_cons_of_ne_nil hc]
  rw [jsPop_eq _ (List.cons_ne_nil _ _)]
  simp only [Option.some_bind, List.getLast_cons hu,
    List.dropLast_cons_of_ne_nil hu]
  rw [jsPop_eq _ (List.cons_ne_nil _ _)]
  simp only [Option.some_bind, List.getLast_cons ht,
    List.dropLast_cons_of_ne_nil ht, Option.pure_def]

/-- C3: one pump-transport step is exactly the four-way rotation — the
lower pipe's last node becomes the collector's head, the collector's
former last node the upper pipe's head, the upper pipe's former last node
the tank's head, the tank's former last node the lower pipe's head — each
chain losing one node at the tail and gaining one at the head, with all
lengths preserved and all values transported unchanged. -/
theorem pump_rotates_one_node (s : SimState)
    (hc : s.collectorWaterNodeTemperatures ≠ [])
    (hu : s.upperPipeWaterNodeTemperatures ≠ [])
    (ht : s.tankWaterNodeTemperatures ≠ [])
    (hl : s.lowerPipeWaterNodeTemperatures ≠ []) :
    pumpOneWaterNode s = some { s with
      collectorWaterNodeTemperatures :=
        (s.lowerPipeWaterNodeTemperatures.getLast hl ::
          s.collectorWaterNodeTemperatures.dropLast)
      upperPipeWaterNodeTemperatures :=
        (s.collectorWaterNodeTemperatures.getLast hc ::
          s.upperPipeWaterNodeTemperatures.dropLast)
      tankWaterNodeTemperatures :=
        (s.upperPipeWaterNodeTemperatures.getLast hu ::
          s.tankWaterNodeTemperatures.dropLast)
      lowerPipeWaterNodeTemperatures :=
        (s.tankWaterNodeTemperatures.getLast ht ::
          s.lowerPipeWaterNodeTemperatures.dropLast) } ∧
    (∀ s', pumpOneWaterNode s = some s' →
      s'.collectorWaterNodeTemperatures.length =
        s.collectorWaterNodeTemperatures.length ∧
      s'.upperPipeWaterNodeTemperatures.length =
        s.upperPipeWaterNodeTemperatures.length ∧
      s'.tankWaterNodeTemperatures.length =
        s.tankWaterNodeTemperatures.length ∧
      s'.lowerPipeWaterNodeTemperatures.length =
        s.lowerPipeWaterNodeTemperatures.length) := by
  refine ⟨pumpOneWaterNode_eq s hc hu ht hl, ?_⟩
  intro s' h
  rw [pumpOneWaterNode_eq s hc hu ht hl, Option.some_inj] at h
  subst h
  have h1 := List.length_pos.mpr hc
  have h2 := List.length_pos.mpr hu
  have h3 := List.length_pos.mpr ht
  have h4 := List.length_pos.mpr hl
  simp only [List.length_cons, List.length_dropLast]
  omega

/-- Witness for C3 at a concrete state with two-node chains. -/
theorem pump_rotates_one_node_witness :
    ([(7 : ℚ), 8] ≠ ([] : List ℚ)) ∧
    pumpOneWaterNode
      ⟨true, true, 0, 1000, [1, 2], [3, 4], [5, 6], [7, 8]⟩ =
      some ⟨true, true, 0, 1000, [8, 1], [6, 3], [2, 5], [4, 7]⟩ := by
  refine ⟨by simp, ?_⟩
  simpa using (pump_rotates_one_node
    ⟨true, true, 0, 1000, [1, 2], [3, 4], [5, 6], [7, 8]⟩
    (by simp) (by simp) (by simp) (by simp)).1

/-- C7: the multiset of all node temperatures across the four chains is
invariant under one pump-transport step. -/
theorem pump_conserves_multiset (s : SimState)
    (hc : s.collectorWaterNodeTemperatures ≠ [])
    (hu : s.upperPipeWaterNodeTemperatures ≠ [])
    (ht : s.tankWaterNodeTemperatures ≠ [])
    (hl : s.lowerPipeWaterNodeTemperatures ≠ []) :
    ∀ s', pumpOneWaterNode s = some s' →
      ((s'.collectorWaterNodeTemperatures ++
        s'.upperPipeWaterNodeTemperatures ++
        s'.tankWaterNodeTemperatures ++
        s'.lowerPipeWaterNodeTemperatures : List ℚ) : Multiset ℚ) =
      ((s.collectorWaterNodeTemperatures ++
        s.upperPipeWaterNodeTemperatures ++
        s.tankWaterNodeTemperatures ++
        s.lowerPipeWaterNodeTemperatures : List ℚ) : Multiset ℚ) := by
  intro s' h
  rw [pumpOneWaterNode_eq s hc hu ht hl, Option.some_inj] at h
  subst h
  conv_rhs => rw [← List.dropLast_append_getLast hc,
    ← List.dropLast_append_getLast hu,
    ← List.dropLast_append_getLast ht,
    ← List.dropLast_append_getLast hl]
  simp only [← Multiset.coe_add, ← Multiset.cons_coe,
    ← Multiset.singleton_add, Multiset.coe_nil]
  abel

/-- Witness for C7 at a concrete state with two-node chains. -/
theorem pump_conserves_multiset_witness :
    ([(7 : ℚ), 8] ≠ ([] : List ℚ)) ∧
    (([(8 : ℚ), 1] ++ [2, 5] ++ [6, 3] ++ [4, 7] : List ℚ) : Multiset ℚ) =
      (([(1 : ℚ), 2] ++ [5, 6] ++ [3, 4] ++ [7, 8] : List ℚ) :
        Multiset ℚ) :=
  ⟨by simp, pump_conserves_multiset
    ⟨true, true, 0, 1000, [1, 2], [3, 4], [5, 6], [7, 8]⟩
    (by simp) (by simp) (by simp) (by simp)
    ⟨true, true, 0, 1000, [8, 1], [6, 3], [2, 5], [4, 7]⟩ (by decide)⟩

/-- C5: one solar-heating step adds the same increment
`solarIntensity * area * Δt * efficiency / (mass * specificHeat)` to every
collector node, with the unclamped linear efficiency taken at the
pre-step collector outlet temperature; when the efficiency and the
irradiance are positive no collector node's temperature decreases. -/
theorem solar_heating_uniform_increment (solarIntensity : ℚ)
    (collector : List ℚ) :
    (heatWaterInSolarCollector solarIntensity collector
        pumpTimeToMoveOneNode =
      collector.map (fun temp => temp +
        solarIntensity * collectorSurfaceArea * pumpTimeToMoveOneNode *
          efficiencyOfSolarCollector (collectorOutputTemperature collector)
            ambientAirTemperature /
          (collectorTotalWaterMass * specificHeatCapacityOfWater))) ∧
    (0 < solarIntensity →
      0 < efficiencyOfSolarCollector (collectorOutputTemperature collector)
          ambientAirTemperature →
      ∀ i, i < collector.length →
        collector.getD i 0 ≤
          (heatWaterInSolarCollector solarIntensity collector
            pumpTimeToMoveOneNode).getD i 0) := by
  constructor
  · rfl
  · intro hI heff i hi
    have hdt : 0 < pumpTimeToMoveOneNode := by
      norm_num [pumpTimeToMoveOneNode, volumeOfWaterNode,
        pumpFlowRateWhenOn]
    have hA : 0 < collectorSurfaceArea := by norm_num [collectorSurfaceArea]
    have hmc : 0 < collectorTotalWaterMass * specificHeatCapacityOfWater := by
      norm_num [collectorTotalWaterMass, volumeOfWaterInCollector,
        densityOfWater, specificHeatCapacityOfWater]
    have hinc : 0 ≤ solarIntensity * collectorSurfaceArea *
        pumpTimeToMoveOneNode *
        efficiencyOfSolarCollector (collectorOutputTemperature collector)
          ambientAirTemperature /
        (collectorTotalWaterMass * specificHeatCapacityOfWater) := by
      apply div_nonneg _ (le_of_lt hmc)
      have := mul_pos (mul_pos (mul_pos hI hA) hdt) heff
      linarith
    show collector.getD i 0 ≤ _
    rw [show heatWaterInSolarCollector solarIntensity collector
        pumpTimeToMoveOneNode = collector.map (fun temp => temp +
          solarIntensity * collectorSurfaceArea * pumpTimeToMoveOneNode *
            efficiencyOfSolarCollector
              (collectorOutputTemperature collector)
              ambientAirTemperature /
            (collectorTotalWaterMass * specificHeatCapacityOfWater))
        from rfl]
    rw [List.getD_eq_getElem?_getD, List.getD_eq_getElem?_getD,
      List.getElem?_map, List.getElem?_eq_getElem hi]
    simp only [Option.map_some', Option.getD_some]
    exact le_add_of_nonneg_right hinc

/-- Witness for C5: one node at 20 °C, irradiance 1000 W/m², efficiency
0.66 > 0. -/
theorem solar_heating_uniform_increment_witness :
    0 < (1000 : ℚ) ∧
    0 < efficiencyOfSolarCollector (collectorOutputTemperature [(20 : ℚ)])
        ambientAirTemperature ∧
    ([(20 : ℚ)]).getD 0 0 ≤
      (heatWaterInSolarCollector 1000 [(20 : ℚ)]
        pumpTimeToMoveOneNode).getD 0 0 :=
  ⟨by norm_num,
   by norm_num [efficiencyOfSolarCollector, collectorOutputTemperature,
     ambientAirTemperature],
   (solar_heating_uniform_increment 1000 [(20 : ℚ)]).2 (by norm_num)
     (by norm_num [efficiencyOfSolarCollector, collectorOutputTemperature,
       ambientAirTemperature]) 0 (by simp)⟩

/-! ### Lemmas about vertical conduction -/

theorem getD_singleton_zero (m : ℕ) : ([(0 : ℚ)]).getD m 0 = 0 := by
  cases m <;> simp

theorem tankWaterNodeCount_eq : tankWaterNodeCount = 300 := by
  have h : jsRound (tankVolume / volumeOfWaterNode) = 300 := by
    norm_num [jsRound, tankVolume, volumeOfWaterNode]
  rw [tankWaterNodeCount, h]
  rfl

theorem conductedHeat_getD (th dt : ℚ) (T : List ℚ) (i : ℕ) :
    (conductedHeat th dt T).getD i 0 =
      if 1 ≤ i ∧ i + 1 ≤ T.length then
        (T.getD (i - 1) 0 - T.getD i 0) *
          (contactAreaOfWaterNodeInTank th / heightOfWaterNodeInTank th) *
          dt
      else 0 := by
  unfold conductedHeat
  match i with
  | 0 => simp
  | j + 1 =>
    simp only [List.cons_append, List.getD_cons_succ]
    rcases lt_or_le j (T.length - 1) with hj | hj
    · rw [List.getD_append _ _ _ j (by simpa using hj),
        List.getD_eq_getElem _ _ (by simpa using hj), List.getElem_map,
        List.getElem_range]
      rw [if_pos (by omega)]
      simp
    · rw [List.getD_append_right _ _ _ j (by simpa using hj),
        if_neg (by omega)]
      exact getD_singleton_zero _

theorem sum_map_range (f : ℕ → ℚ) (n : ℕ) :
    ((List.range n).map f).sum = ∑ i ∈ Finset.range n, f i := by
  induction n with
  | zero => simp
  | succ n ih =>
    rw [List.range_succ, List.map_append, List.sum_append,
      Finset.sum_range_succ, ih]
    simp

theorem sum_getD_range (T : List ℚ) :
    ∑ i ∈ Finset.range T.length, T.getD i 0 = T.sum := by
  induction T with
  | nil => simp
  | cons a l ih =>
    rw [List.length_cons, Finset.sum_range_succ', List.sum_cons]
    simp only [List.getD_cons_succ, List.getD_cons_zero, ih]
    exact add_comm _ _

/-- C10: one vertical-conduction step conserves the sum of the tank node
temperatures exactly — the per-node net heat changes telescope and both
boundary heat terms are zero. -/
theorem conduction_conserves_sum (th dt : ℚ) (T : List ℚ) :
    (manageHeatConductionAcrossTankWater th dt T).sum = T.sum := by
  unfold manageHeatConductionAcrossTankWater
  rw [sum_map_range, Finset.sum_add_distrib, sum_getD_range]
  have hz : ∑ i ∈ Finset.range T.length,
      ((conductedHeat th dt T).getD i 0 -
        (conductedHeat th dt T).getD (i + 1) 0) /
      massOfWaterNode / specificHeatCapacityOfWater = 0 := by
    rw [← Finset.sum_div, ← Finset.sum_div, Finset.sum_range_sub']
    rw [conductedHeat_getD, conductedHeat_getD, if_neg (by omega),
      if_neg (by omega)]
    simp
  rw [hz, add_zero]

/-- Equality of the source conduction step and the reference definition on
tanks of the configured node count. -/
theorem manage_eq_reference (th dt : ℚ) (T : List ℚ)
    (hT : T.length = tankWaterNodeCount) :
    manageHeatConductionAcrossTankWater th dt T =
      conductionReferenceStep th dt T := by
  have hcast : ((tankWaterNodeCount : ℕ) : ℚ) = (T.length : ℚ) := by
    exact_mod_cast congrArg (Nat.cast : ℕ → ℚ) hT.symm
  unfold manageHeatConductionAcrossTankWater conductionReferenceStep
  apply List.map_congr_left
  intro i hi
  rw [List.mem_range] at hi
  rw [conductedHeat_getD, conductedHeat_getD, div_div]
  congr 2
  all_goals
    simp [contactAreaOfWaterNodeInTank, heightOfWaterNodeInTank, hcast]

/-- The conduction step leaves a uniform tank exactly unchanged. -/
theorem manage_uniform (th dt x : ℚ) (n : ℕ) :
    manageHeatConductionAcrossTankWater th dt (List.replicate n x) =
      List.replicate n x := by
  have hH : ∀ i, (conductedHeat th dt (List.replicate n x)).getD i 0 = 0 := by
    intro i
    rw [conductedHeat_getD]
    split
    · next h =>
      rw [List.length_replicate] at h
      rw [List.getD_eq_getElem _ _ (by simp; omega),
        List.getD_eq_getElem _ _ (by simp; omega),
        List.getElem_replicate, List.getElem_replicate]
      ring
    · rfl
  unfold manageHeatConductionAcrossTankWater
  have : ∀ i ∈ List.range (List.replicate n x).length,
      (List.replicate n x).getD i 0 +
        ((conductedHeat th dt (List.replicate n x)).getD i 0 -
          (conductedHeat th dt (List.replicate n x)).getD (i + 1) 0) /
        massOfWaterNode / specificHeatCapacityOfWater = x := by
    intro i hi
    rw [List.mem_range, List.length_replicate] at hi
    rw [hH, hH, List.getD_eq_getElem _ _ (by simp; omega),
      List.getElem_replicate]
    simp
  rw [List.map_congr_left this, List.map_const', List.length_range,
    List.length_replicate]

/-- C2: one vertical-conduction step equals the reference per-boundary
flux definition (zero flux at the two tank ends, simultaneous update from
the pre-step snapshot) on tanks of the configured node count, and as a
consequence a uniform tank temperature is left exactly unchanged. -/
theorem conduction_matches_reference :
    (∀ th dt (T : List ℚ), T.length = tankWaterNodeCount →
      manageHeatConductionAcrossTankWater th dt T =
        conductionReferenceStep th dt T) ∧
    (∀ th dt (x : ℚ) (n : ℕ),
      manageHeatConductionAcrossTankWater th dt (List.replicate n x) =
        List.replicate n x) :=
  ⟨fun th dt T hT => manage_eq_reference th dt T hT,
   fun th dt x n => manage_uniform th dt x n⟩

/-- Witness for C2 at a uniform 300-node tank. -/
theorem conduction_matches_reference_witness :
    (List.replicate 300 (20 : ℚ)).length = tankWaterNodeCount ∧
    manageHeatConductionAcrossTankWater 1 1 (List.replicate 300 (20 : ℚ)) =
      conductionReferenceStep 1 1 (List.replicate 300 (20 : ℚ)) :=
  ⟨by rw [List.length_replicate, tankWaterNodeCount_eq],
   conduction_matches_reference.1 1 1 _
     (by rw [List.length_replicate, tankWaterNodeCount_eq])⟩

/-! ### The tick orchestrator -/

theorem tick_run_false (tankHeight : ℚ) (s : SimState)
    (h : s.simulationRunning = false) : tick tankHeight s = some s := by
  simp [tick, h]

theorem tick_run_pump (tankHeight : ℚ) (s : SimState)
    (hrun : s.simulationRunning = true) (hpump : s.pumpOn = true) :
    tick tankHeight s =
      (pumpOneWaterNode { s with t := s.t + pumpTimeToMoveOneNode }).bind
        (fun s2 =>
          (mixColdWaterOnTopOfTankWithHotWaterBelow
            s2.tankWaterNodeTemperatures).map
            (fun m => heatThenConduct tankHeight
              { s2 with tankWaterNodeTemperatures := m })) := by
  cases hp : pumpOneWaterNode { s with t := s.t + pumpTimeToMoveOneNode }
    with
  | none =>
    simp only [hrun, hpump] at hp
    simp [tick, hrun, hpump, hp]
  | some s2 =>
    cases hm : mixColdWaterOnTopOfTankWithHotWaterBelow
        s2.tankWaterNodeTemperatures with
    | none =>
      simp only [hrun, hpump] at hp
      simp [tick, hrun, hpump, hp, hm]
    | some m =>
      simp only [hrun, hpump] at hp
      simp [tick, hrun, hpump, hp, hm, heatThenConduct]

theorem tick_run_nopump (tankHeight : ℚ) (s : SimState)
    (hrun : s.simulationRunning = true) (hpump : s.pumpOn = false) :
    tick tankHeight s =
      some (heatThenConduct tankHeight
        { s with t := s.t + pumpTimeToMoveOneNode }) := by
  simp [tick, hrun, hpump, heatThenConduct]

/-- C4: a tick with `running = false` is a no-op; otherwise the clock
advances by exactly `pumpTimeToMoveOneNode`, then (only when `pumpOn`)
pump transport runs followed by stratification mixing, and solar heating
followed by vertical conduction run unconditionally, in that order. -/
theorem tick_orchestration (tankHeight : ℚ) (s : SimState) :
    (s.simulationRunning = false → tick tankHeight s = some s) ∧
    (s.simulationRunning = true → s.pumpOn = true →
      tick tankHeight s =
        (pumpOneWaterNode { s with t := s.t + pumpTimeToMoveOneNode }).bind
          (fun s2 =>
            (mixColdWaterOnTopOfTankWithHotWaterBelow
              s2.tankWaterNodeTemperatures).map
              (fun m => heatThenConduct tankHeight
                { s2 with tankWaterNodeTemperatures := m }))) ∧
    (s.simulationRunning = true → s.pumpOn = false →
      tick tankHeight s =
        some (heatThenConduct tankHeight
          { s with t := s.t + pumpTimeToMoveOneNode })) :=
  ⟨tick_run_false tankHeight s, tick_run_pump tankHeight s,
   tick_run_nopump tankHeight s⟩

/-- Witness for C4: a paused tick at a concrete state is a no-op. -/
theorem tick_orchestration_witness :
    (SimState.simulationRunning
      ⟨false, true, 0, 1000, [20], [20], [20], [20]⟩ = false) ∧
    tick 1 ⟨false, true, 0, 1000, [20], [20], [20], [20]⟩ =
      some ⟨false, true, 0, 1000, [20], [20], [20], [20]⟩ :=
  ⟨rfl, (tick_orchestration 1
    ⟨false, true, 0, 1000, [20], [20], [20], [20]⟩).1 rfl⟩

/-! ### Error handling -/

theorem jsRound_nearest (q : ℚ) (k : ℤ) :
    |q - (jsRound q : ℚ)| ≤ |q - (k : ℚ)| := by
  unfold jsRound
  have h1 : ((⌊q + 1 / 2⌋ : ℤ) : ℚ) ≤ q + 1 / 2 := Int.floor_le _
  have h2 : q + 1 / 2 < (⌊q + 1 / 2⌋ : ℚ) + 1 := Int.lt_floor_add_one _
  by_cases hk : k = ⌊q + 1 / 2⌋
  · rw [hk]
  · have hne : ((k : ℚ) - (⌊q + 1 / 2⌋ : ℤ)) ≠ 0 := by
      rw [sub_ne_zero]
      exact_mod_cast hk
    have hone : (1 : ℚ) ≤ |(k : ℚ) - (⌊q + 1 / 2⌋ : ℤ)| := by
      have : (1 : ℤ) ≤ |k - ⌊q + 1 / 2⌋| :=
        Int.one_le_abs (sub_ne_zero.mpr hk)
      exact_mod_cast this
    have htri : |(k : ℚ) - (⌊q + 1 / 2⌋ : ℤ)| ≤
        |(k : ℚ) - q| + |q - (⌊q + 1 / 2⌋ : ℤ)| := abs_sub_le _ _ _
    have hhalf : |q - (⌊q + 1 / 2⌋ : ℤ)| ≤ 1 / 2 :=
      abs_le.mpr ⟨by linarith, by linarith⟩
    have : 1 / 2 ≤ |(k : ℚ) - q| := by linarith
    rw [abs_sub_comm q (k : ℚ)]
    linarith

theorem assert_check_iff (v : ℚ) :
    (assertVolumeIsAMultipleOfNodeVolume v
      (jsRound (v / volumeOfWaterNode)) = true) ↔
    ∀ k : ℤ, 1 / 1000000 < |v - (k : ℚ) * volumeOfWaterNode| := by
  have hnv : (0 : ℚ) < volumeOfWaterNode := by norm_num [volumeOfWaterNode]
  simp only [assertVolumeIsAMultipleOfNodeVolume, decide_eq_true_eq]
  constructor
  · intro h k
    refine lt_of_lt_of_le h ?_
    have hfact : ∀ m : ℤ, v - (m : ℚ) * volumeOfWaterNode =
        (v / volumeOfWaterNode - (m : ℚ)) * volumeOfWaterNode := by
      intro m
      field_simp
      ring
    rw [hfact, hfact, abs_mul, abs_mul, abs_of_pos hnv]
    exact mul_le_mul_of_nonneg_right
      (jsRound_nearest (v / volumeOfWaterNode) k) (le_of_lt hnv)
  · intro h
    exact h _

theorem mix_isSome (l : List ℚ) (h : l ≠ []) :
    (mixColdWaterOnTopOfTankWithHotWaterBelow l).isSome := by
  match l with
  | [t] => simp [mixColdWaterOnTopOfTankWithHotWaterBelow]
  | t0 :: t1 :: rest =>
    by_cases hle : t1 ≤ t0 <;>
      simp [mixColdWaterOnTopOfTankWithHotWaterBelow, hle]

theorem tick_total (th : ℚ) (s : SimState)
    (hc : s.collectorWaterNodeTemperatures ≠ [])
    (hu : s.upperPipeWaterNodeTemperatures ≠ [])
    (ht : s.tankWaterNodeTemperatures ≠ [])
    (hl : s.lowerPipeWaterNodeTemperatures ≠ []) :
    (tick th s).isSome := by
  by_cases hrun : s.simulationRunning
  · by_cases hp : s.pumpOn
    · rw [tick_run_pump th s hrun hp]
      rw [pumpOneWaterNode_eq { s with t := s.t + pumpTimeToMoveOneNode }
        hc hu ht hl]
      simp only [Option.some_bind]
      have hmix := mix_isSome
        (s.upperPipeWaterNodeTemperatures.getLast hu ::
          s.tankWaterNodeTemperatures.dropLast) (by simp)
      rcases Option.isSome_iff_exists.mp hmix with ⟨m, hm⟩
      simp [hm]
    · have hp2 : s.pumpOn = false := by simpa using hp
      rw [tick_run_nopump th s hrun hp2]
      simp
  · have hrun2 : s.simulationRunning = false := by simpa using hrun
    rw [tick_run_false th s hrun2]
    simp

/-- C9: construction raises the fatal configuration error exactly when
some component's configured volume (collector or tank) differs from every
— hence from the nearest — integer multiple of the node volume by more
than the 1e-6 m³ tolerance; and a tick never fails given fixed non-empty
chains (per-tick arithmetic is total). -/
theorem configuration_error_characterisation :
    (constructionRaisesConfigurationError = true ↔
      ((∀ k : ℤ, 1 / 1000000 <
          |volumeOfWaterInCollector - (k : ℚ) * volumeOfWaterNode|) ∨
       (∀ k : ℤ, 1 / 1000000 <
          |tankVolume - (k : ℚ) * volumeOfWaterNode|))) ∧
    (∀ th (s : SimState), s.collectorWaterNodeTemperatures ≠ [] →
      s.upperPipeWaterNodeTemperatures ≠ [] →
      s.tankWaterNodeTemperatures ≠ [] →
      s.lowerPipeWaterNodeTemperatures ≠ [] →
      (tick th s).isSome) := by
  constructor
  · rw [constructionRaisesConfigurationError, Bool.or_eq_true,
      assert_check_iff, assert_check_iff]
  · intro th s hc hu ht hl
    exact tick_total th s hc hu ht hl

/-- Witness for C9 at a concrete running state with one-node chains. -/
theorem configuration_error_characterisation_witness :
    ([(20 : ℚ)] ≠ ([] : List ℚ)) ∧
    (tick 1 ⟨true, true, 0, 1000, [20], [20], [20], [20]⟩).isSome :=
  ⟨by simp, configuration_error_characterisation.2 1
    ⟨true, true, 0, 1000, [20], [20], [20], [20]⟩
    (by simp) (by simp) (by simp) (by simp)⟩

end ThermalSim
